import Mathlib

set_option autoImplicit false

/-!
Verification of the Spectrum backend services. The Python services are shallowly
embedded: strings are manipulated through `List Char` helpers mirroring the
Python string methods (`strip`, `lower`, `split`, substring tests, `int(...)`),
database tables are lists of typed rows, and external OpenAI/embedding calls are
modelled by `Option String` oracle inputs holding the value the call site would
receive (the call helpers return `None`/empty text on every failure, so an
oracle value captures the full observable behaviour of one call). SQLAlchemy
timestamps are modelled as abstract `Nat` ticks whose rendering `toString` is
injective and order preserving. SQL `ORDER BY ... DESC` is modelled by a stable
insertion sort on the key; the rows produced by the embedded queries follow
table (insertion) order on ties.
-/

/-! ### Python string primitives over `List Char` (ASCII semantics) -/

/-- Whitespace recognised by Python `str.strip` / the regex class. -/
def pySpace (c : Char) : Bool :=
  c = ' ' || c = '\t' || c = '\n' || c = '\r' || c = Char.ofNat 11 || c = Char.ofNat 12

/-- Python `str.strip()` on the character list. -/
def pyStripL (l : List Char) : List Char :=
  ((l.dropWhile pySpace).reverse.dropWhile pySpace).reverse

/-- Python `str.lower()` (ASCII case folding). -/
def pyLowerL (l : List Char) : List Char :=
  l.map Char.toLower

/-- Python `str.upper()` (ASCII case folding). -/
def pyUpperL (l : List Char) : List Char :=
  l.map Char.toUpper

/-- `str.strip()` lifted to `String`. -/
def pyStrip (s : String) : String :=
  String.mk (pyStripL s.data)

/-- `str.lower()` lifted to `String`. -/
def pyLower (s : String) : String :=
  String.mk (pyLowerL s.data)

/-- `str.upper()` lifted to `String`. -/
def pyUpper (s : String) : String :=
  String.mk (pyUpperL s.data)

/-- Boolean prefix test (`str.startswith`). -/
def prefixOfB : List Char → List Char → Bool
  | [], _ => true
  | _ :: _, [] => false
  | a :: as, b :: bs => a = b && prefixOfB as bs

/-- Boolean substring test (Python `token in text`). -/
def infixOfB (pat : List Char) : List Char → Bool
  | [] => pat.isEmpty
  | c :: rest => prefixOfB pat (c :: rest) || infixOfB pat rest

/-- Python `value.split(sep, 1)`: the pieces before and after the first
occurrence of `sep` (the whole list and `[]` when `sep` is absent). -/
def splitFirst (sep : Char) : List Char → List Char × List Char
  | [] => ([], [])
  | c :: cs =>
    if c = sep then ([], cs)
    else
      let p := splitFirst sep cs
      (c :: p.1, p.2)

/-- Decimal value of a digit list (most significant first). -/
def digitsVal (l : List Char) : Nat :=
  l.foldl (fun a c => a * 10 + (c.toNat - 48)) 0

/-- Digit body of a Python integer literal after the sign: nonempty digits in
which each underscore sits between two digits (`int("1_2") = 12`). -/
def pyIntBodyRest : List Char → Bool
  | [] => true
  | c :: cs =>
    if c = '_' then
      match cs with
      | [] => false
      | d :: ds => d.isDigit && pyIntBodyRest ds
    else c.isDigit && pyIntBodyRest cs

/-- Whole digit body check: nonempty, starts with a digit. -/
def pyIntBody : List Char → Bool
  | [] => false
  | c :: cs => c.isDigit && pyIntBodyRest cs

/-- Python `int(str)` (ASCII): strip whitespace, optional sign, digit body with
legal underscores; `none` models the `ValueError`. -/
def pyInt (l : List Char) : Option Int :=
  match pyStripL l with
  | '+' :: r => if pyIntBody r then some (digitsVal (r.filter (fun c => c ≠ '_'))) else none
  | '-' :: r => if pyIntBody r then some (-(digitsVal (r.filter (fun c => c ≠ '_')) : Int)) else none
  | r => if pyIntBody r then some (digitsVal (r.filter (fun c => c ≠ '_'))) else none

/-- Stable insertion placing `x` before the first strictly smaller key, so a
descending sort that keeps the original order on equal keys. -/
def insertDescBy {α : Type} (key : α → Nat) (x : α) : List α → List α
  | [] => [x]
  | y :: ys => if key y ≤ key x then x :: y :: ys else y :: insertDescBy key x ys

/-- Stable descending sort by a `Nat` key (`ORDER BY key DESC`, Python
`list.sort(key=..., reverse=True)`; both keep insertion order on ties in this
model). -/
def sortDescBy {α : Type} (key : α → Nat) (l : List α) : List α :=
  l.foldr (insertDescBy key) []

/-! ### Distress Evaluator (`services/distress_alert_service.py`)

`TaskEmotionLog.stress_level` and `.emotion` are non-nullable columns
(`models.py`), so the defensive `log.stress_level or 0` and `log.emotion or ""`
coercions are the identity and are not repeated here. -/

structure TaskEmotionLog where
  id : Nat
  child_id : Nat
  task_name : String
  stress_level : Int
  emotion : String
  created_at : Nat
deriving Repr, DecidableEq

/-- `_serialize_log`: the task tuple stored in the alert payload
(task name, emotion, stress level, logged-at tick). -/
def serializeLog (log : TaskEmotionLog) : String × String × Int × Nat :=
  (log.task_name, log.emotion, log.stress_level, log.created_at)

/-- A reference document from the `message.json` corpus, with the fields the
scorer reads (`doc.get` defaults applied as in the source). -/
structure MessageDoc where
  topics : List String
  skills_targeted : List String
  emotion : String
  support_context : Option String
  age_range : String
  recommendation : String
  source : String
  pages : String
deriving Repr, DecidableEq

/-- `_summarize_doc`: the projection stored in the alert payload. -/
def summarizeDoc (doc : MessageDoc) : String × String × List String × Option String :=
  (doc.source, doc.pages, doc.topics, doc.support_context)

structure ParentAlert where
  id : Nat
  child_id : Nat
  reason : String
  message : String
  payload_tasks : List (String × String × Int × Nat)
  payload_documents : List (String × String × List String × Option String)
  latest_log_id : Nat
  previous_log_id : Nat
deriving Repr, DecidableEq

/-- `ChildProfile`: notes, cached guidance, and the typed trait bag the
guidance composer reads (`gender`, `hair`, `skin`, `glasses`). -/
structure Traits where
  gender : Option String
  hair : Option String
  skin : Option String
  glasses : Bool
deriving Repr, DecidableEq

structure ChildProfile where
  notes : Option String
  guidance : Option String
  traits : Traits
deriving Repr, DecidableEq

structure Child where
  id : Nat
  name : String
  age : Int
  disability : Option String
  level : String
  profile : Option ChildProfile
  created_at : Nat
deriving Repr, DecidableEq

/-- The rows touched by the distress evaluator, plus the id the next flushed
alert would receive. -/
structure DistressDB where
  task_emotion_logs : List TaskEmotionLog
  parent_alerts : List ParentAlert
  next_alert_id : Nat
deriving Repr, DecidableEq

def STRESS_LEVEL_THRESHOLD : Int := 4

def NEGATIVE_EMOTIONS : List String := ["sad", "very_stressed"]

/-- `_is_high_distress`. -/
def isHighDistress (log : TaskEmotionLog) : Bool :=
  decide (STRESS_LEVEL_THRESHOLD ≤ log.stress_level)
    || NEGATIVE_EMOTIONS.contains (pyStrip (pyLower log.emotion))

/-- `_last_consumed_log_id`: most recent alert by `latest_log_id DESC`, then the
max of its two consumed log ids. -/
def lastConsumedLogId (db : DistressDB) (child_id : Nat) : Option Nat :=
  match (sortDescBy (fun a => a.latest_log_id)
      (db.parent_alerts.filter (fun a => a.child_id == child_id))).head? with
  | none => none
  | some alert => some (max alert.latest_log_id alert.previous_log_id)

/-- The base query of `evaluate_and_create_distress_alert`: the child's logs,
restricted to `id > cutoff` only when the cutoff is truthy (`if cutoff_log_id:`
skips the filter for `None` and for `0`). -/
def unconsumedLogs (db : DistressDB) (child_id : Nat) : List TaskEmotionLog :=
  let base := db.task_emotion_logs.filter (fun l => l.child_id == child_id)
  match lastConsumedLogId db child_id with
  | some cutoff => if cutoff ≠ 0 then base.filter (fun l => decide (cutoff < l.id)) else base
  | none => base

/-- The `ORDER BY created_at DESC LIMIT 2` result of the evaluator's query. -/
def recentUnconsumedLogs (db : DistressDB) (child_id : Nat) : List TaskEmotionLog :=
  (sortDescBy (fun l => l.created_at) (unconsumedLogs db child_id)).take 2

/-- `_keywords_from_logs`. The source works with a set seeded with
`{"stress", "emotion", "task"}`; re-adding `"stress"`/`"emotion"` is a set
no-op, so the only observable addition is `"support"` on a negative emotion. -/
def keywordsFromLogs (logs : List TaskEmotionLog) : List String :=
  ["stress", "emotion", "task"] ++
    (if logs.any (fun log => NEGATIVE_EMOTIONS.contains (pyStrip (pyLower log.emotion)))
      then ["support"] else [])

/-- `_age_in_range` (ages are ints here; the caller passes `child.age or 0`, and
`not age` is falsy exactly for `0`). -/
def ageInRange (age : Int) (raw_range : List Char) : Bool :=
  if age = 0 || raw_range = [] then false
  else
    let r := pyStripL raw_range
    if r.contains '+' then
      match pyInt (r.filter (fun c => c ≠ '+')) with
      | some base => decide (base ≤ age)
      | none => false
    else if r.contains '-' then
      let p := splitFirst '-' r
      match pyInt p.1, pyInt p.2 with
      | some lo, some hi => decide (lo ≤ age ∧ age ≤ hi)
      | _, _ => false
    else
      match pyInt r with
      | some n => decide (age = n)
      | none => false

/-- `ageInRange` on `String` inputs. -/
def ageInRangeS (age : Int) (raw_range : String) : Bool :=
  ageInRange age raw_range.data

/-- The additive relevance score of `_select_reference_docs`, counted in
half-point units so the Python float arithmetic (increments of 0.5, 1 and 2 on
a zero base) stays exact: 1 unit = 0.5 points. -/
def docScoreHalves (child_age : Int) (keywords : List String) (doc : MessageDoc) : Nat :=
  (if doc.topics.any (fun t => t == "emotional_regulation" || t == "behavior_support") then 4 else 0)
    + (if doc.topics.contains "family_support" then 1 else 0)
    + (if doc.skills_targeted.any (fun s => s == "emotional_regulation" || s == "behavior") then 2 else 0)
    + (if ["sad", "overwhelmed", "general_wellbeing", "anxious"].contains (pyLower doc.emotion) then 2 else 0)
    + (if (match doc.support_context with
        | some sc => ["home_routine", "general_guidance", "therapy", "community"].contains sc
        | none => false) then 1 else 0)
    + (if ageInRange child_age doc.age_range.data then 2 else 0)
    + (if keywords.any (fun k => infixOfB k.data (pyLowerL doc.recommendation.data)) then 1 else 0)

/-- `_select_reference_docs`: drop zero-score docs, stable-sort the rest by
score descending (original order on ties), keep the top `limit`. `child.age` is
non-nullable, so `child.age or 0` is the identity. -/
def selectReferenceDocs (docs : List MessageDoc) (child : Child)
    (logs : List TaskEmotionLog) (limit : Nat) : List MessageDoc :=
  if docs = [] then []
  else
    let keywords := keywordsFromLogs logs
    let scored := docs.filter (fun d => 0 < docScoreHalves child.age keywords d)
    (sortDescBy (docScoreHalves child.age keywords) scored).take limit

/-- `_fallback_message` (the local `severity` in the source is computed but
never used in the returned text). -/
def fallbackMessage (child : Child) (logs : List TaskEmotionLog)
    (docs : List MessageDoc) : String :=
  let task_titles := String.intercalate (", ") (logs.map (fun l => l.task_name))
  let doc_hint := match docs with
    | [] => "your support plan"
    | d :: _ => d.source
  "We noticed that " ++ child.name ++ " showed high stress during " ++ task_titles
    ++ ". Take a calming break together, keep language simple, and lean on ideas from "
    ++ doc_hint ++ " to reset before the next activity."

/-- `_build_alert_message`: the oracle holds `_ask_openai`'s return value
(`none` on any failure, possibly `""` after stripping); a falsy result falls
back to the deterministic template. -/
def buildAlertMessage (ai : Option String) (child : Child)
    (logs : List TaskEmotionLog) (docs : List MessageDoc) : String :=
  match ai with
  | some m => if m = "" then fallbackMessage child logs docs else m
  | none => fallbackMessage child logs docs

/-- `evaluate_and_create_distress_alert`: returns the alert (existing or newly
flushed) and the updated table state. Taking `LIMIT 2` and destructuring merges
the `len(recent_logs) < 2` early return with the `latest, previous` unpacking. -/
def evaluateAndCreateDistressAlert (ai : Option String) (docs : List MessageDoc)
    (db : DistressDB) (child : Child) : Option ParentAlert × DistressDB :=
  match recentUnconsumedLogs db child.id with
  | [latest, previous] =>
    if isHighDistress latest && isHighDistress previous then
      match (db.parent_alerts.filter (fun a =>
          a.child_id == child.id && a.latest_log_id == latest.id
            && a.previous_log_id == previous.id)).head? with
      | some existing => (some existing, db)
      | none =>
        let supporting := selectReferenceDocs docs child [latest, previous] 3
        let alert : ParentAlert :=
          { id := db.next_alert_id
            child_id := child.id
            reason := "high_distress_sequence"
            message := buildAlertMessage ai child [latest, previous] supporting
            payload_tasks := ([latest, previous].reverse).map serializeLog
            payload_documents := supporting.map summarizeDoc
            latest_log_id := latest.id
            previous_log_id := previous.id }
        (some alert, { db with parent_alerts := db.parent_alerts ++ [alert]
                               next_alert_id := db.next_alert_id + 1 })
    else (none, db)
  | _ => (none, db)

/-! ### Basic lemmas about the sort helper -/

theorem insertDescBy_length {α : Type} (key : α → Nat) (x : α) (l : List α) :
    (insertDescBy key x l).length = l.length + 1 := by
  induction l with
  | nil => rfl
  | cons y ys ih =>
    unfold insertDescBy
    split
    · rfl
    · simp [List.length, ih]

theorem sortDescBy_length {α : Type} (key : α → Nat) (l : List α) :
    (sortDescBy key l).length = l.length := by
  induction l with
  | nil => rfl
  | cons y ys ih =>
    unfold sortDescBy at *
    simp [List.foldr, insertDescBy_length, ih]

theorem mem_insertDescBy {α : Type} (key : α → Nat) (x y : α) (l : List α) :
    y ∈ insertDescBy key x l ↔ y = x ∨ y ∈ l := by
  induction l with
  | nil => simp [insertDescBy]
  | cons z zs ih =>
    unfold insertDescBy
    split
    · simp [or_comm, or_left_comm]
    · simp [ih, or_comm, or_left_comm]

theorem mem_sortDescBy {α : Type} (key : α → Nat) (x : α) (l : List α) :
    x ∈ sortDescBy key l ↔ x ∈ l := by
  induction l with
  | nil => simp [sortDescBy]
  | cons y ys ih =>
    unfold sortDescBy at *
    simp [List.foldr, mem_insertDescBy, ih]

/-! ### Branch equations for the evaluator -/

theorem evaluate_short (ai : Option String) (docs : List MessageDoc)
    (db : DistressDB) (child : Child)
    (h : (recentUnconsumedLogs db child.id).length ≤ 1) :
    evaluateAndCreateDistressAlert ai docs db child = (none, db) := by
  unfold evaluateAndCreateDistressAlert
  rcases hr : recentUnconsumedLogs db child.id with _ | ⟨a, _ | ⟨b, t⟩⟩
  · rfl
  · rfl
  · rw [hr] at h
    simp at h

theorem evaluate_not_high (ai : Option String) (docs : List MessageDoc)
    (db : DistressDB) (child : Child) (a b : TaskEmotionLog)
    (hr : recentUnconsumedLogs db child.id = [a, b])
    (h : (isHighDistress a && isHighDistress b) = false) :
    evaluateAndCreateDistressAlert ai docs db child = (none, db) := by
  unfold evaluateAndCreateDistressAlert
  rw [hr]
  simp [h]

theorem evaluate_existing (ai : Option String) (docs : List MessageDoc)
    (db : DistressDB) (child : Child) (a b : TaskEmotionLog) (ex : ParentAlert)
    (hr : recentUnconsumedLogs db child.id = [a, b])
    (ha : isHighDistress a = true) (hb : isHighDistress b = true)
    (hex : (db.parent_alerts.filter (fun x =>
        x.child_id == child.id && x.latest_log_id == a.id
          && x.previous_log_id == b.id)).head? = some ex) :
    evaluateAndCreateDistressAlert ai docs db child = (some ex, db) := by
  unfold evaluateAndCreateDistressAlert
  rw [hr]
  simp [ha, hb, hex]

theorem evaluate_create (ai : Option String) (docs : List MessageDoc)
    (db : DistressDB) (child : Child) (a b : TaskEmotionLog)
    (hr : recentUnconsumedLogs db child.id = [a, b])
    (ha : isHighDistress a = true) (hb : isHighDistress b = true)
    (hex : (db.parent_alerts.filter (fun x =>
        x.child_id == child.id && x.latest_log_id == a.id
          && x.previous_log_id == b.id)).head? = none) :
    ∃ y : ParentAlert,
      evaluateAndCreateDistressAlert ai docs db child =
        (some y, { db with parent_alerts := db.parent_alerts ++ [y],
                           next_alert_id := db.next_alert_id + 1 })
      ∧ y.child_id = child.id ∧ y.latest_log_id = a.id ∧ y.previous_log_id = b.id := by
  refine ⟨{ id := db.next_alert_id,
            child_id := child.id,
            reason := "high_distress_sequence",
            message := buildAlertMessage ai child [a, b] (selectReferenceDocs docs child [a, b] 3),
            payload_tasks := ([a, b].reverse).map serializeLog,
            payload_documents := (selectReferenceDocs docs child [a, b] 3).map summarizeDoc,
            latest_log_id := a.id,
            previous_log_id := b.id }, ?_, rfl, rfl, rfl⟩
  unfold evaluateAndCreateDistressAlert
  rw [hr]
  simp [ha, hb, hex]

theorem recent_len_eq (db : DistressDB) (cid : Nat) :
    (recentUnconsumedLogs db cid).length = min 2 (unconsumedLogs db cid).length := by
  unfold recentUnconsumedLogs
  rw [List.length_take, sortDescBy_length]

theorem recent_len_le (db : DistressDB) (cid : Nat) :
    (recentUnconsumedLogs db cid).length ≤ 2 := by
  rw [recent_len_eq]
  omega

theorem isHighDistress_iff (log : TaskEmotionLog) :
    isHighDistress log = true
      ↔ (4 ≤ log.stress_level ∨ pyStrip (pyLower log.emotion) = "sad"
          ∨ pyStrip (pyLower log.emotion) = "very_stressed") := by
  simp [isHighDistress, STRESS_LEVEL_THRESHOLD, NEGATIVE_EMOTIONS, List.contains_cons,
    beq_iff_eq, Bool.or_eq_true, decide_eq_true_eq, or_assoc]

theorem unconsumed_len_of_recent (db : DistressDB) (cid n : Nat)
    (h : (recentUnconsumedLogs db cid).length = n) (hn : n < 2) :
    (unconsumedLogs db cid).length = n := by
  rw [recent_len_eq, Nat.min_def] at h
  split at h
  · omega
  · omega

theorem unconsumed_len_ge2_of_recent2 (db : DistressDB) (cid : Nat)
    (a b : TaskEmotionLog) (h : recentUnconsumedLogs db cid = [a, b]) :
    2 ≤ (unconsumedLogs db cid).length := by
  have h1 : (recentUnconsumedLogs db cid).length = 2 := by rw [h]; rfl
  rw [recent_len_eq, Nat.min_def] at h1
  split at h1
  · assumption
  · omega

/-- C1: the evaluator creates or returns an alert exactly when at least two
unconsumed `TaskEmotionLog` rows exist and both of the two most recent such
rows are high-distress; in every other case it returns nothing and leaves the
database unchanged; and a row is high-distress iff its `stress_level` is at
least 4 or its lowercased, trimmed emotion label is `sad` or `very_stressed`. -/
theorem distress_alert_gate (ai : Option String) (docs : List MessageDoc)
    (db : DistressDB) (child : Child) :
    ((evaluateAndCreateDistressAlert ai docs db child).1.isSome = true
        ↔ 2 ≤ (unconsumedLogs db child.id).length
            ∧ (recentUnconsumedLogs db child.id).all isHighDistress = true)
      ∧ ((evaluateAndCreateDistressAlert ai docs db child).1 = none
          → (evaluateAndCreateDistressAlert ai docs db child).2 = db)
      ∧ (∀ log : TaskEmotionLog, isHighDistress log = true
          ↔ (4 ≤ log.stress_level ∨ pyStrip (pyLower log.emotion) = "sad"
              ∨ pyStrip (pyLower log.emotion) = "very_stressed")) := by
  rcases hr : recentUnconsumedLogs db child.id with _ | ⟨a, _ | ⟨b, t⟩⟩
  · have hev := evaluate_short ai docs db child (by rw [hr]; simp)
    have hl := unconsumed_len_of_recent db child.id 0 (by rw [hr]; rfl) (by omega)
    refine ⟨?_, fun _ => by rw [hev], fun log => isHighDistress_iff log⟩
    rw [hev]
    simp
    omega
  · have hev := evaluate_short ai docs db child (by rw [hr]; simp)
    have hl := unconsumed_len_of_recent db child.id 1 (by rw [hr]; rfl) (by omega)
    refine ⟨?_, fun _ => by rw [hev], fun log => isHighDistress_iff log⟩
    rw [hev]
    simp
    omega
  · have ht : t = [] := by
      have h2 := recent_len_le db child.id
      rw [hr] at h2
      simp only [List.length_cons] at h2
      exact List.eq_nil_of_length_eq_zero (by omega)
    subst ht
    have hlen2 := unconsumed_len_ge2_of_recent2 db child.id a b hr
    cases hd : (isHighDistress a && isHighDistress b) with
    | true =>
      obtain ⟨ha, hb⟩ := Bool.and_eq_true_iff.mp hd
      have hsome : ((evaluateAndCreateDistressAlert ai docs db child).1).isSome = true := by
        rcases hex : (db.parent_alerts.filter (fun x =>
            x.child_id == child.id && x.latest_log_id == a.id
              && x.previous_log_id == b.id)).head? with _ | ex
        · obtain ⟨y, hy, _⟩ := evaluate_create ai docs db child a b hr ha hb hex
          rw [hy]
          rfl
        · rw [evaluate_existing ai docs db child a b ex hr ha hb hex]
          rfl
      refine ⟨?_, ?_, fun log => isHighDistress_iff log⟩
      · rw [hsome]
        simp only [true_iff]
        refine ⟨hlen2, ?_⟩
        simp [ha, hb]
      · intro hnone
        rw [hnone] at hsome
        simp at hsome
    | false =>
      have hev := evaluate_not_high ai docs db child a b hr hd
      refine ⟨?_, fun _ => by rw [hev], fun log => isHighDistress_iff log⟩
      rw [hev]
      simp only [Option.isSome_none, List.all_cons, List.all_nil, Bool.and_true, hd]
      simp

def c1Child : Child :=
  { id := 1, name := "Ana", age := 5, disability := none, level := "beginner", profile := none, created_at := 0 }

def c1Log : TaskEmotionLog :=
  { id := 1, child_id := 1, task_name := "puzzle", stress_level := 1,
    emotion := "happy", created_at := 1 }

def c1DB : DistressDB :=
  { task_emotion_logs := [c1Log], parent_alerts := [], next_alert_id := 1 }

/-- C1 witness: with a single (non-distressed) log the evaluator leaves the
database unchanged. -/
theorem distress_alert_gate_witness :
    (evaluateAndCreateDistressAlert none [] c1DB c1Child).2 = c1DB :=
  (distress_alert_gate none [] c1DB c1Child).2.1 (by decide)

theorem recent_cons_cons (db : DistressDB) (cid : Nat) (a b : TaskEmotionLog)
    (t : List TaskEmotionLog) (h : recentUnconsumedLogs db cid = a :: b :: t) :
    t = [] := by
  have h2 := recent_len_le db cid
  rw [h] at h2
  simp only [List.length_cons] at h2
  exact List.eq_nil_of_length_eq_zero (by omega)

/-- Count of stored alerts referencing one `(latest_log_id, previous_log_id)`
pair for a child. -/
def pairAlertCount (db : DistressDB) (cid l p : Nat) : Nat :=
  (db.parent_alerts.filter (fun x =>
    x.child_id == cid && x.latest_log_id == l && x.previous_log_id == p)).length

/-- C2: alert creation is idempotent on the log-id pair: one evaluation never
lifts the number of alerts for any pair above one (a new alert is only flushed
when no alert with its pair exists), and when the qualifying unconsumed pair is
already covered by a stored alert the evaluation returns that alert and leaves
the database unchanged. -/
theorem distress_alert_idempotent (ai : Option String) (docs : List MessageDoc)
    (db : DistressDB) (child : Child) :
    (∀ l p : Nat, pairAlertCount db child.id l p ≤ 1 →
        pairAlertCount (evaluateAndCreateDistressAlert ai docs db child).2 child.id l p ≤ 1)
      ∧ (∀ (latest previous : TaskEmotionLog) (a : ParentAlert),
          recentUnconsumedLogs db child.id = [latest, previous] →
          isHighDistress latest = true → isHighDistress previous = true →
          (db.parent_alerts.filter (fun x =>
              x.child_id == child.id && x.latest_log_id == latest.id
                && x.previous_log_id == previous.id)).head? = some a →
          evaluateAndCreateDistressAlert ai docs db child = (some a, db)) := by
  constructor
  · intro l p hle
    rcases hr : recentUnconsumedLogs db child.id with _ | ⟨a, _ | ⟨b, t⟩⟩
    · rw [evaluate_short ai docs db child (by rw [hr]; simp)]
      exact hle
    · rw [evaluate_short ai docs db child (by rw [hr]; simp)]
      exact hle
    · have ht := recent_cons_cons db child.id a b t hr
      subst ht
      cases hd : (isHighDistress a && isHighDistress b) with
      | false =>
        rw [evaluate_not_high ai docs db child a b hr hd]
        exact hle
      | true =>
        obtain ⟨ha, hb⟩ := Bool.and_eq_true_iff.mp hd
        rcases hex : (db.parent_alerts.filter (fun x =>
            x.child_id == child.id && x.latest_log_id == a.id
              && x.previous_log_id == b.id)).head? with _ | ex
        · obtain ⟨y, hy, hyc, hyl, hyp⟩ := evaluate_create ai docs db child a b hr ha hb hex
          rw [hy]
          unfold pairAlertCount at hle ⊢
          simp only [List.filter_append, List.length_append]
          by_cases hmatch : (y.child_id == child.id && y.latest_log_id == l
              && y.previous_log_id == p) = true
          · simp only [Bool.and_eq_true, beq_iff_eq] at hmatch
            obtain ⟨⟨h1, h2⟩, h3⟩ := hmatch
            have hl2 : l = a.id := by rw [← h2, hyl]
            have hp2 : p = b.id := by rw [← h3, hyp]
            subst hl2
            subst hp2
            rw [List.head?_eq_none_iff] at hex
            rw [hex]
            have hy1 : (List.filter (fun x =>
                x.child_id == child.id && x.latest_log_id == a.id
                  && x.previous_log_id == b.id) [y]).length = 1 := by
              simp [List.filter, hyc, hyl, hyp]
            rw [hy1]
            simp
          · have hy0 : List.filter (fun x =>
                x.child_id == child.id && x.latest_log_id == l
                  && x.previous_log_id == p) [y] = [] := by
              rw [Bool.not_eq_true] at hmatch
              simp [List.filter_cons, hmatch]
            rw [hy0]
            simpa using hle
        · rw [evaluate_existing ai docs db child a b ex hr ha hb hex]
          exact hle
  · intro latest previous a hra hla hpa hexa
    exact evaluate_existing ai docs db child latest previous a hra hla hpa hexa

def c2Child : Child :=
  { id := 1, name := "Zoe", age := 4, disability := none, level := "beginner", profile := none, created_at := 0 }

def c2LogNew : TaskEmotionLog :=
  { id := 0, child_id := 1, task_name := "stacking", stress_level := 5,
    emotion := "sad", created_at := 2 }

def c2LogOld : TaskEmotionLog :=
  { id := 0, child_id := 1, task_name := "matching", stress_level := 4,
    emotion := "very_stressed", created_at := 1 }

def c2Alert : ParentAlert :=
  { id := 1, child_id := 1, reason := "high_distress_sequence", message := "prior alert",
    payload_tasks := [], payload_documents := [], latest_log_id := 0, previous_log_id := 0 }

def c2DB : DistressDB :=
  { task_emotion_logs := [c2LogNew, c2LogOld], parent_alerts := [c2Alert], next_alert_id := 2 }

/-- C2 witness: one bound instance of the count conjunct, and a state in which
the qualifying pair is already covered, where re-evaluation hands back the
stored alert without touching the database. -/
theorem distress_alert_idempotent_witness :
    pairAlertCount (evaluateAndCreateDistressAlert none [] c2DB c2Child).2 1 0 0 ≤ 1
      ∧ evaluateAndCreateDistressAlert none [] c2DB c2Child = (some c2Alert, c2DB) :=
  ⟨(distress_alert_idempotent none [] c2DB c2Child).1 0 0 (by decide),
   (distress_alert_idempotent none [] c2DB c2Child).2 c2LogNew c2LogOld c2Alert
     (by decide) (by decide) (by decide) (by decide)⟩

def c5Child : Child :=
  { id := 1, name := "Mia", age := 6, disability := none, level := "beginner", profile := none, created_at := 0 }

def c5LogA : TaskEmotionLog :=
  { id := 1, child_id := 1, task_name := "task A", stress_level := 5,
    emotion := "sad", created_at := 1 }

def c5LogB : TaskEmotionLog :=
  { id := 2, child_id := 1, task_name := "task B", stress_level := 2,
    emotion := "happy", created_at := 2 }

def c5LogC : TaskEmotionLog :=
  { id := 3, child_id := 1, task_name := "task C", stress_level := 4,
    emotion := "neutral", created_at := 3 }

def c5DB : DistressDB :=
  { task_emotion_logs := [c5LogA, c5LogB, c5LogC], parent_alerts := [], next_alert_id := 1 }

/-- C5 counterexample: in the spec scenario (age-6 child; log A stress 5 `sad`,
then log B stress 2 `happy`, then log C stress 4) the two most recent
unconsumed logs after C are {C, B} — not the claimed {C, A} — and since B is
not high-distress the evaluator creates no alert at all, refuting the claimed
single alert referencing `(C.id, A.id)`. -/
theorem distress_scenario_counterexample :
    recentUnconsumedLogs c5DB 1 = [c5LogC, c5LogB]
      ∧ evaluateAndCreateDistressAlert none [] c5DB c5Child = (none, c5DB) := by
  decide

/-- C5 amended: evaluating after C considers {C, B} as the two most recent
unconsumed logs; C is high-distress but B is not, so no alert is created and
the database is unchanged. -/
theorem distress_scenario_amended :
    recentUnconsumedLogs c5DB 1 = [c5LogC, c5LogB]
      ∧ isHighDistress c5LogC = true
      ∧ isHighDistress c5LogB = false
      ∧ evaluateAndCreateDistressAlert none [] c5DB c5Child = (none, c5DB) := by
  decide

theorem mem_recent_gt_cutoff (db : DistressDB) (cid k : Nat) (x : TaskEmotionLog)
    (hk : lastConsumedLogId db cid = some k) (hk0 : k ≠ 0)
    (hx : x ∈ recentUnconsumedLogs db cid) : k < x.id := by
  unfold recentUnconsumedLogs at hx
  have hx2 := List.take_subset 2 _ hx
  rw [mem_sortDescBy] at hx2
  unfold unconsumedLogs at hx2
  rw [hk] at hx2
  simp only [ne_eq, hk0, not_false_eq_true, if_true] at hx2
  have hfilter := (List.mem_filter.mp hx2).2
  simpa using hfilter

/-- C8: whenever a prior alert supplies a (truthy) consumed high-water mark
`k = max(latest_log_id, previous_log_id)`, any newly created alert references
two log ids that both exceed `k`, so per-child alert pairs only move forward. -/
theorem alert_highwater_monotone (ai : Option String) (docs : List MessageDoc)
    (db : DistressDB) (child : Child) (k : Nat) (y : ParentAlert)
    (hk : lastConsumedLogId db child.id = some k) (hk0 : k ≠ 0)
    (hnew : (evaluateAndCreateDistressAlert ai docs db child).2.parent_alerts
      = db.parent_alerts ++ [y]) :
    k < y.latest_log_id ∧ k < y.previous_log_id := by
  rcases hr : recentUnconsumedLogs db child.id with _ | ⟨a, _ | ⟨b, t⟩⟩
  · rw [evaluate_short ai docs db child (by rw [hr]; simp)] at hnew
    simp at hnew
  · rw [evaluate_short ai docs db child (by rw [hr]; simp)] at hnew
    simp at hnew
  · have ht := recent_cons_cons db child.id a b t hr
    subst ht
    cases hd : (isHighDistress a && isHighDistress b) with
    | false =>
      rw [evaluate_not_high ai docs db child a b hr hd] at hnew
      simp at hnew
    | true =>
      obtain ⟨ha, hb⟩ := Bool.and_eq_true_iff.mp hd
      rcases hex : (db.parent_alerts.filter (fun x =>
          x.child_id == child.id && x.latest_log_id == a.id
            && x.previous_log_id == b.id)).head? with _ | ex
      · obtain ⟨y0, hy, hyc, hyl, hyp⟩ := evaluate_create ai docs db child a b hr ha hb hex
        rw [hy] at hnew
        simp only [List.append_cancel_left_eq] at hnew
        have hy0 : y0 = y := by
          injection hnew
        subst hy0
        rw [hyl, hyp]
        constructor
        · exact mem_recent_gt_cutoff db child.id k a hk hk0 (by rw [hr]; simp)
        · exact mem_recent_gt_cutoff db child.id k b hk hk0 (by rw [hr]; simp)
      · rw [evaluate_existing ai docs db child a b ex hr ha hb hex] at hnew
        simp at hnew

def c8Child : Child :=
  { id := 1, name := "Rui", age := 7, disability := none, level := "beginner", profile := none, created_at := 0 }

def c8Prior : ParentAlert :=
  { id := 1, child_id := 1, reason := "high_distress_sequence", message := "earlier alert",
    payload_tasks := [], payload_documents := [], latest_log_id := 2, previous_log_id := 1 }

def c8Log3 : TaskEmotionLog :=
  { id := 3, child_id := 1, task_name := "drawing", stress_level := 4,
    emotion := "sad", created_at := 3 }

def c8Log4 : TaskEmotionLog :=
  { id := 4, child_id := 1, task_name := "reading", stress_level := 5,
    emotion := "very_stressed", created_at := 4 }

def c8DB : DistressDB :=
  { task_emotion_logs := [c8Log3, c8Log4], parent_alerts := [c8Prior], next_alert_id := 2 }

def c8New : ParentAlert :=
  { id := 2, child_id := 1, reason := "high_distress_sequence",
    message := buildAlertMessage none c8Child [c8Log4, c8Log3]
      (selectReferenceDocs [] c8Child [c8Log4, c8Log3] 3),
    payload_tasks := ([c8Log4, c8Log3].reverse).map serializeLog,
    payload_documents := [],
    latest_log_id := 4, previous_log_id := 3 }

set_option maxRecDepth 8192 in
/-- C8 witness: with a prior alert consuming up to log id 2, the next created
alert references log ids 4 and 3, both beyond the high-water mark. -/
theorem alert_highwater_monotone_witness :
    2 < c8New.latest_log_id ∧ 2 < c8New.previous_log_id :=
  alert_highwater_monotone none [] c8DB c8Child 2 c8New (by decide) (by decide) (by decide)

/-! ### Lemmas for the age-range matcher -/

theorem dropWhile_eq_self_of_none {α : Type} (p : α → Bool) (l : List α)
    (h : ∀ c ∈ l, p c = false) : l.dropWhile p = l := by
  cases l with
  | nil => rfl
  | cons c cs =>
    rw [List.dropWhile_cons, h c (by simp)]
    simp

theorem pyStripL_eq_self (l : List Char) (h : ∀ c ∈ l, pySpace c = false) :
    pyStripL l = l := by
  unfold pyStripL
  rw [dropWhile_eq_self_of_none _ _ h,
    dropWhile_eq_self_of_none _ _ (fun c hc => h c (List.mem_reverse.mp hc))]
  exact List.reverse_reverse l

theorem digit_ne_plus (c : Char) (h : c.isDigit = true) : c ≠ '+' := by
  intro he
  subst he
  exact absurd h (by decide)

theorem digit_ne_minus (c : Char) (h : c.isDigit = true) : c ≠ '-' := by
  intro he
  subst he
  exact absurd h (by decide)

theorem digit_ne_underscore (c : Char) (h : c.isDigit = true) : c ≠ '_' := by
  intro he
  subst he
  exact absurd h (by decide)

theorem pySpace_digit (c : Char) (h : c.isDigit = true) : pySpace c = false := by
  have h1 : c ≠ ' ' := by intro he; subst he; exact absurd h (by decide)
  have h2 : c ≠ '\t' := by intro he; subst he; exact absurd h (by decide)
  have h3 : c ≠ '\n' := by intro he; subst he; exact absurd h (by decide)
  have h4 : c ≠ '\r' := by intro he; subst he; exact absurd h (by decide)
  have h5 : c ≠ Char.ofNat 11 := by intro he; subst he; exact absurd h (by decide)
  have h6 : c ≠ Char.ofNat 12 := by intro he; subst he; exact absurd h (by decide)
  simp [pySpace, h1, h2, h3, h4, h5, h6]

theorem pySpace_plus : pySpace '+' = false := by decide

theorem pySpace_minus : pySpace '-' = false := by decide

theorem pyIntBodyRest_digits (l : List Char) (h : ∀ c ∈ l, c.isDigit = true) :
    pyIntBodyRest l = true := by
  induction l with
  | nil => rfl
  | cons c cs ih =>
    unfold pyIntBodyRest
    rw [if_neg (digit_ne_underscore c (h c (by simp)))]
    rw [h c (by simp), ih (fun d hd => h d (by simp [hd]))]
    rfl

theorem pyIntBody_digits (l : List Char) (h0 : l ≠ []) (h : ∀ c ∈ l, c.isDigit = true) :
    pyIntBody l = true := by
  cases l with
  | nil => exact absurd rfl h0
  | cons c cs =>
    show (c.isDigit && pyIntBodyRest cs) = true
    rw [h c (by simp), pyIntBodyRest_digits cs (fun d hd => h d (by simp [hd]))]
    rfl

theorem filter_no_underscore (l : List Char) (h : ∀ c ∈ l, c.isDigit = true) :
    l.filter (fun c => c ≠ '_') = l :=
  List.filter_eq_self.mpr
    (fun a ha => decide_eq_true (digit_ne_underscore a (h a ha)))

theorem pyInt_digits (l : List Char) (h0 : l ≠ []) (h : ∀ c ∈ l, c.isDigit = true) :
    pyInt l = some ((digitsVal l : Int)) := by
  have hstrip : pyStripL l = l :=
    pyStripL_eq_self l (fun c hc => pySpace_digit c (h c hc))
  unfold pyInt
  rw [hstrip]
  cases l with
  | nil => exact absurd rfl h0
  | cons c cs =>
    have hcd := h c (by simp)
    split
    · rename_i r heq
      exact absurd (List.head_eq_of_cons_eq heq) (digit_ne_plus c hcd)
    · rename_i r heq
      exact absurd (List.head_eq_of_cons_eq heq) (digit_ne_minus c hcd)
    · rw [if_pos (pyIntBody_digits _ h0 h), filter_no_underscore _ h]

theorem contains_eq_true_of_mem {α : Type} [BEq α] [LawfulBEq α]
    (l : List α) (a : α) (h : a ∈ l) : l.contains a = true := by
  show l.elem a = true
  exact List.elem_eq_true_of_mem h

theorem contains_eq_false_of_not_mem {α : Type} [BEq α] [LawfulBEq α]
    (l : List α) (a : α) (h : a ∉ l) : l.contains a = false := by
  show l.elem a = false
  rw [List.elem_eq_mem]
  exact decide_eq_false h

theorem splitFirst_append (sep : Char) (l r : List Char) (h : ∀ c ∈ l, c ≠ sep) :
    splitFirst sep (l ++ sep :: r) = (l, r) := by
  induction l with
  | nil =>
    show splitFirst sep (sep :: r) = ([], r)
    unfold splitFirst
    rw [if_pos rfl]
  | cons c cs ih =>
    show splitFirst sep (c :: (cs ++ sep :: r)) = (c :: cs, r)
    unfold splitFirst
    rw [if_neg (h c (by simp))]
    rw [ih (fun d hd => h d (by simp [hd]))]

/-- The claim's reading of age-range matching: a range matches only when it is
literally of the form `N+` (digits then a plus), `N-M` (digits, dash, digits),
or a bare `N` (digits), with the corresponding comparison on the age. -/
def specFormMatch (age : Int) (s : List Char) : Bool :=
  (decide (2 ≤ s.length) && s.dropLast.all Char.isDigit && (s.getLast? == some '+')
      && decide ((digitsVal s.dropLast : Int) ≤ age))
    || (s.contains '-' && (splitFirst '-' s).1 ≠ [] && (splitFirst '-' s).1.all Char.isDigit
        && (splitFirst '-' s).2 ≠ [] && (splitFirst '-' s).2.all Char.isDigit
        && decide ((digitsVal (splitFirst '-' s).1 : Int) ≤ age
            ∧ age ≤ (digitsVal (splitFirst '-' s).2 : Int)))
    || (s ≠ [] && s.all Char.isDigit && decide (age = (digitsVal s : Int)))

/-- C7 counterexample: `"1+2"` is of none of the claimed forms, yet
`_age_in_range` matches it against age 15 (every `'+'` is deleted and the rest
parsed, so it behaves as `"12+"`); and `"0+"` is of the form `N+` with `N = 0`,
yet age 0 matches nothing because `not age` is truthy for 0. -/
theorem age_in_range_counterexample :
    ageInRange 15 (String.data ("1+2")) = true
      ∧ specFormMatch 15 (String.data ("1+2")) = false
      ∧ ageInRange 0 (String.data ("0+")) = false
      ∧ specFormMatch 0 (String.data ("0+")) = true := by
  decide

theorem ageInRange_zero (s : List Char) : ageInRange 0 s = false := by
  unfold ageInRange
  simp

theorem ageInRange_plus_form (age : Int) (ds : List Char) (h1 : 1 ≤ age)
    (h0 : ds ≠ []) (hd : ∀ c ∈ ds, c.isDigit = true) :
    ageInRange age (ds ++ ['+']) = decide ((digitsVal ds : Int) ≤ age) := by
  have hne : ¬(age = 0) := by omega
  have hstrip : pyStripL (ds ++ ['+']) = ds ++ ['+'] := by
    apply pyStripL_eq_self
    intro c hc
    rcases List.mem_append.mp hc with h | h
    · exact pySpace_digit c (hd c h)
    · simp at h
      subst h
      exact pySpace_plus
  have hcontains : (ds ++ ['+']).contains '+' = true :=
    contains_eq_true_of_mem _ _ (by simp)
  have hfilter : (ds ++ ['+']).filter (fun c => c ≠ '+') = ds := by
    rw [List.filter_append]
    have e1 : ds.filter (fun c => c ≠ '+') = ds :=
      List.filter_eq_self.mpr (fun a ha => decide_eq_true (digit_ne_plus a (hd a ha)))
    have e2 : (['+'] : List Char).filter (fun c => c ≠ '+') = [] := rfl
    rw [e1, e2, List.append_nil]
  unfold ageInRange
  rw [if_neg (by simp [hne])]
  simp only [hstrip, hcontains, if_true]
  rw [hfilter, pyInt_digits ds h0 hd]

theorem ageInRange_range_form (age : Int) (ds ds2 : List Char) (h1 : 1 ≤ age)
    (h0 : ds ≠ []) (hd : ∀ c ∈ ds, c.isDigit = true)
    (h02 : ds2 ≠ []) (hd2 : ∀ c ∈ ds2, c.isDigit = true) :
    ageInRange age (ds ++ '-' :: ds2)
      = decide ((digitsVal ds : Int) ≤ age ∧ age ≤ (digitsVal ds2 : Int)) := by
  have hne : ¬(age = 0) := by omega
  have hstrip : pyStripL (ds ++ '-' :: ds2) = ds ++ '-' :: ds2 := by
    apply pyStripL_eq_self
    intro c hc
    rcases List.mem_append.mp hc with h | h
    · exact pySpace_digit c (hd c h)
    · rcases List.mem_cons.mp h with h | h
      · subst h
        exact pySpace_minus
      · exact pySpace_digit c (hd2 c h)
  have hnoplus : (ds ++ '-' :: ds2).contains '+' = false := by
    apply contains_eq_false_of_not_mem
    intro hmem
    rcases List.mem_append.mp hmem with h | h
    · exact digit_ne_plus _ (hd _ h) rfl
    · rcases List.mem_cons.mp h with h | h
      · exact absurd h (by decide)
      · exact digit_ne_plus _ (hd2 _ h) rfl
  have hminus : (ds ++ '-' :: ds2).contains '-' = true :=
    contains_eq_true_of_mem _ _ (by simp)
  have hsplit : splitFirst '-' (ds ++ '-' :: ds2) = (ds, ds2) :=
    splitFirst_append '-' ds ds2 (fun c hc => digit_ne_minus c (hd c hc))
  unfold ageInRange
  rw [if_neg (by simp [hne])]
  simp only [hstrip, hnoplus, hminus, Bool.false_eq_true, if_false, if_true]
  rw [hsplit]
  rw [show ((ds, ds2).1) = ds from rfl, show ((ds, ds2).2) = ds2 from rfl]
  rw [pyInt_digits ds h0 hd, pyInt_digits ds2 h02 hd2]

theorem ageInRange_bare_form (age : Int) (ds : List Char) (h1 : 1 ≤ age)
    (h0 : ds ≠ []) (hd : ∀ c ∈ ds, c.isDigit = true) :
    ageInRange age ds = decide (age = (digitsVal ds : Int)) := by
  have hne : ¬(age = 0) := by omega
  have hstrip : pyStripL ds = ds :=
    pyStripL_eq_self ds (fun c hc => pySpace_digit c (hd c hc))
  have hnoplus : ds.contains '+' = false :=
    contains_eq_false_of_not_mem _ _ (fun hmem => digit_ne_plus _ (hd _ hmem) rfl)
  have hnominus : ds.contains '-' = false :=
    contains_eq_false_of_not_mem _ _ (fun hmem => digit_ne_minus _ (hd _ hmem) rfl)
  unfold ageInRange
  rw [if_neg (by simp [hne, h0])]
  simp only [hstrip, hnoplus, hnominus, Bool.false_eq_true, if_false]
  rw [pyInt_digits ds h0 hd]

theorem ageInRange_plus_anywhere (age : Int) (s : List Char) (n : Int) (h1 : 1 ≤ age)
    (hc : (pyStripL s).contains '+' = true)
    (hp : pyInt ((pyStripL s).filter (fun c => c ≠ '+')) = some n) :
    ageInRange age s = decide (n ≤ age) := by
  have hs : s ≠ [] := by
    intro he
    subst he
    exact absurd hc (by decide)
  unfold ageInRange
  rw [if_neg (by simp [show ¬(age = 0) by omega, hs])]
  simp only [hc, if_true]
  rw [hp]

/-- C7 amended: for ages >= 1 the digit forms behave as claimed — `N+` matches
iff `age >= N`, `N-M` iff `N <= age <= M`, bare `N` iff `age = N` — while age 0
(the falsy age) matches nothing; but a malformed range is not guaranteed to
match nothing: any range whose stripped text contains `'+'` is handled by
deleting every `'+'` and parsing the remainder as an integer threshold, so
e.g. `"1+2"` behaves as `"12+"`. -/
theorem age_in_range_amended :
    (∀ s : List Char, ageInRange 0 s = false)
      ∧ (∀ (age : Int) (ds : List Char), 1 ≤ age → ds ≠ [] →
          (∀ c ∈ ds, c.isDigit = true) →
          ageInRange age (ds ++ ['+']) = decide ((digitsVal ds : Int) ≤ age)
            ∧ ageInRange age ds = decide (age = (digitsVal ds : Int)))
      ∧ (∀ (age : Int) (ds ds2 : List Char), 1 ≤ age →
          ds ≠ [] → (∀ c ∈ ds, c.isDigit = true) →
          ds2 ≠ [] → (∀ c ∈ ds2, c.isDigit = true) →
          ageInRange age (ds ++ '-' :: ds2)
            = decide ((digitsVal ds : Int) ≤ age ∧ age ≤ (digitsVal ds2 : Int)))
      ∧ (∀ (age : Int) (s : List Char) (n : Int), 1 ≤ age →
          (pyStripL s).contains '+' = true →
          pyInt ((pyStripL s).filter (fun c => c ≠ '+')) = some n →
          ageInRange age s = decide (n ≤ age)) :=
  ⟨ageInRange_zero,
   fun age ds h1 h0 hd =>
     ⟨ageInRange_plus_form age ds h1 h0 hd, ageInRange_bare_form age ds h1 h0 hd⟩,
   fun age ds ds2 h1 h0 hd h02 hd2 =>
     ageInRange_range_form age ds ds2 h1 h0 hd h02 hd2,
   fun age s n h1 hc hp => ageInRange_plus_anywhere age s n h1 hc hp⟩

/-- C7 witness: concrete instances of the amended characterisation — `"5+"`
matches age 6, `"3-7"` matches age 5, `"6"` matches age 6, and the malformed
`"1+2"` matches age 15 through the plus-deletion behaviour. -/
theorem age_in_range_amended_witness :
    ageInRange 6 (['5'] ++ ['+']) = decide ((digitsVal ['5'] : Int) ≤ 6)
      ∧ ageInRange 5 (['3'] ++ '-' :: ['7'])
          = decide ((digitsVal ['3'] : Int) ≤ 5 ∧ (5:Int) ≤ (digitsVal ['7'] : Int))
      ∧ ageInRange 6 ['6'] = decide ((6:Int) = (digitsVal ['6'] : Int))
      ∧ ageInRange 15 (String.data ("1+2")) = decide ((12:Int) ≤ 15) :=
  ⟨(age_in_range_amended.2.1 6 ['5'] (by decide) (by decide) (by decide)).1,
   age_in_range_amended.2.2.1 5 ['3'] ['7'] (by decide) (by decide) (by decide)
     (by decide) (by decide),
   (age_in_range_amended.2.1 6 ['6'] (by decide) (by decide) (by decide)).2,
   age_in_range_amended.2.2.2 15 (String.data ("1+2")) 12 (by decide) (by decide)
     (by decide)⟩

/-! ### Task planning cap (`services/rag_service.py`)

`_estimate_task_cap_from_guidance` inspects the guidance text's bullet lines,
long sentences, paragraphs and word count; `plan_tasks_from_guidance` uses a
positive caller-given `max_tasks` or that estimate. Regex/str split helpers are
modelled below: `re.split` on a character class with `+` splits on maximal
runs, `str.split()` splits on whitespace runs dropping empties, and
`str.splitlines` recognises the usual line terminators (`\r\n` as one). -/

/-- Skip the remainder of a delimiter run. -/
def dropRun (p : Char → Bool) : List Char → List Char
  | [] => []
  | c :: cs => if p c then dropRun p cs else c :: cs

theorem dropRun_length_le (p : Char → Bool) (l : List Char) :
    (dropRun p l).length ≤ l.length := by
  induction l with
  | nil => exact Nat.le_refl _
  | cons c cs ih =>
    unfold dropRun
    split
    · exact Nat.le_succ_of_le ih
    · exact Nat.le_refl _

/-- Split on maximal runs of delimiter characters (`re.split("[...]+", s)`). -/
def splitRuns (p : Char → Bool) : List Char → List (List Char)
  | [] => [[]]
  | c :: cs =>
    if p c then [] :: splitRuns p (dropRun p cs)
    else
      match splitRuns p cs with
      | [] => [[c]]
      | h :: t => (c :: h) :: t
termination_by l => l.length
decreasing_by
  all_goals simp_wf
  all_goals exact Nat.lt_succ_of_le (dropRun_length_le _ _)

/-- `str.split()` with no separator: whitespace runs, empties dropped. -/
def pyWords (l : List Char) : List (List Char) :=
  (splitRuns pySpace l).filter (fun w => w ≠ [])

/-- Non-overlapping split on the two-character separator `"\n\n"`
(`text.split("\n\n")`). -/
def splitOnNlNl : List Char → List (List Char)
  | [] => [[]]
  | '\n' :: '\n' :: rest => [] :: splitOnNlNl rest
  | c :: rest =>
    match splitOnNlNl rest with
    | [] => [[c]]
    | h :: t => (c :: h) :: t

/-- Line terminators recognised by `str.splitlines` (ASCII set plus NEL and
the Unicode line/paragraph separators). -/
def pyLineBreak (c : Char) : Bool :=
  c = '\n' || c = '\r' || c = Char.ofNat 11 || c = Char.ofNat 12
    || c = Char.ofNat 28 || c = Char.ofNat 29 || c = Char.ofNat 30
    || c = Char.ofNat 133 || c = Char.ofNat 8232 || c = Char.ofNat 8233

def pySplitLinesAux : List Char → List Char → List (List Char)
  | [], acc => if acc = [] then [] else [acc.reverse]
  | '\r' :: '\n' :: rest, acc => acc.reverse :: pySplitLinesAux rest []
  | c :: rest, acc =>
    if pyLineBreak c then acc.reverse :: pySplitLinesAux rest []
    else pySplitLinesAux rest (c :: acc)

/-- `str.splitlines()`: no trailing empty line for a trailing terminator. -/
def pySplitLines (l : List Char) : List (List Char) :=
  pySplitLinesAux l []

/-- One-or-more whitespace at the head (the `\s+` tail of the bullet regex). -/
def headIsSpace : List Char → Bool
  | [] => false
  | c :: _ => pySpace c

/-- `re.match(r"^\s*(?:[-*]|\d+[\).])\s+", line)` as a Boolean test. -/
def bulletMatch (line : List Char) : Bool :=
  match line.dropWhile pySpace with
  | [] => false
  | c :: r =>
    if c = '-' then headIsSpace r
    else if c = '*' then headIsSpace r
    else if c.isDigit then
      match r.dropWhile Char.isDigit with
      | ')' :: r2 => headIsSpace r2
      | '.' :: r2 => headIsSpace r2
      | _ => false
    else false

/-- Sentence-ending punctuation class `[.!?]`. -/
def sentencePunct (c : Char) : Bool :=
  c = '.' || c = '!' || c = '?'

/-- `_estimate_task_cap_from_guidance` (defaults `minimum=2`, `maximum=6`). -/
def estimateTaskCapFromGuidance (guidance : List Char) (minimum maximum : Nat) : Nat :=
  let text := pyStripL guidance
  if text = [] then minimum
  else
    let bulletLines := (pySplitLines text).filter bulletMatch
    if bulletLines ≠ [] then min maximum (max minimum bulletLines.length)
    else
      let sentences := ((splitRuns sentencePunct text).map pyStripL).filter (fun s => s ≠ [])
      let longSentences := sentences.filter (fun s => 8 ≤ (pyWords s).length)
      if longSentences ≠ [] then min maximum (max minimum longSentences.length)
      else
        let paragraphs := (splitOnNlNl text).filter (fun b => pyStripL b ≠ [])
        if paragraphs ≠ [] then min maximum (max minimum paragraphs.length)
        else
          let wordCount := (pyWords text).length
          if wordCount ≤ 40 then minimum
          else if wordCount ≤ 120 then min maximum (minimum + 1)
          else if minimum + 2 ≤ maximum then minimum + 2 else maximum

/-- The cap chosen by `plan_tasks_from_guidance`: a caller-given positive
integer `max_tasks`, otherwise the heuristic estimate on the stripped
guidance. -/
def planTasksTaskCap (max_tasks : Option Int) (clean_guidance : List Char) : Int :=
  match max_tasks with
  | some m => if 0 < m then m else (estimateTaskCapFromGuidance clean_guidance 2 6 : Int)
  | none => (estimateTaskCapFromGuidance clean_guidance 2 6 : Int)

/-- C9: the planning cap is the caller-specified count or the heuristic
estimate, and for every guidance text the heuristic estimate lies in [2, 6]. -/
theorem task_cap_bounds (g : List Char) (mt : Option Int) :
    (planTasksTaskCap mt g = (estimateTaskCapFromGuidance g 2 6 : Int)
        ∨ ∃ m : Int, mt = some m ∧ planTasksTaskCap mt g = m)
      ∧ 2 ≤ estimateTaskCapFromGuidance g 2 6
      ∧ estimateTaskCapFromGuidance g 2 6 ≤ 6 := by
  refine ⟨?_, ?_, ?_⟩
  · cases mt with
    | none => exact Or.inl rfl
    | some m =>
      by_cases hm : 0 < m
      · exact Or.inr ⟨m, rfl, by simp [planTasksTaskCap, hm]⟩
      · exact Or.inl (by simp [planTasksTaskCap, hm])
  · simp only [estimateTaskCapFromGuidance]
    repeat' split
    all_goals omega
  · simp only [estimateTaskCapFromGuidance]
    repeat' split
    all_goals omega

/-! ### Guidance Composer (`services/guidance_service.py`) -/

/-- `AdviceDoc` row (category/title/advice are nullable columns). -/
structure AdviceDocRec where
  id : Nat
  category : Option String
  title : Option String
  advice : Option String
deriving Repr, DecidableEq

/-- Python truthiness of an optional string (`None` and `""` are falsy). -/
def truthyStr : Option String → Bool
  | some s => s ≠ ""
  | none => false

/-- Python `value or default` on an optional string. -/
def pyOrStr (v : Option String) (d : String) : String :=
  match v with
  | some s => if s = "" then d else s
  | none => d

/-- Stable ascending insertion (for `ORDER BY id`). -/
def insertAscBy {α : Type} (key : α → Nat) (x : α) : List α → List α
  | [] => [x]
  | y :: ys => if key x < key y then x :: y :: ys else y :: insertAscBy key x ys

/-- Stable ascending sort by a `Nat` key. -/
def sortAscBy {α : Type} (key : α → Nat) (l : List α) : List α :=
  l.foldr (insertAscBy key) []

/-- The advice-doc table read by the guidance composer. -/
structure GuidanceDB where
  advice_docs : List AdviceDocRec
deriving Repr, DecidableEq

/-- `_fetch_supporting_docs`: first `MAX_GUIDANCE_DOCS = 4` docs by id. -/
def fetchSupportingDocs (db : GuidanceDB) : List AdviceDocRec :=
  (sortAscBy (fun d => d.id) db.advice_docs).take 4

/-- `_describe_traits` (the joined text of a nonempty bit list is never empty,
so `", ".join(bits) or default` reduces to a check on `bits`). -/
def describeTraits (traits : Traits) : String :=
  let bits : List String :=
    (if truthyStr traits.gender then ["gender expression " ++ pyOrStr traits.gender ""] else [])
      ++ (if truthyStr traits.hair then ["hair " ++ pyOrStr traits.hair ""] else [])
      ++ (if truthyStr traits.skin then ["skin tone " ++ pyOrStr traits.skin ""] else [])
      ++ (if traits.glasses then ["wears glasses"] else [])
  if bits = [] then "mixed sensory preferences" else String.intercalate (", ") bits

/-- The paragraphs assembled by `_fallback_guidance`, in order: intro, the
optional caregiver-notes echo, and the closing paragraph weaving the selected
advice snippets (at most 3, or the 3 fixed defaults). -/
def fallbackParagraphs (child : Child) (profile : ChildProfile)
    (docs : List AdviceDocRec) : List String :=
  let name := if child.name = "" then "Your child" else child.name
  let age := if child.age = 0 then "growing" else toString child.age ++ " years old"
  let focus := pyOrStr child.disability "emotional regulation"
  let doc_advices := docs.filterMap (fun d =>
    match d.advice with
    | some a => if a = "" then none else some (pyStrip a)
    | none => none)
  let selected := if doc_advices = [] then
      ["Keep transitions predictable with a gentle countdown.",
       "Offer a quiet corner or weighted object when you see early signs of overload.",
       "Name emotions out loud so the child can mirror your calm tone."]
    else doc_advices.take 3
  let joined_tips := String.intercalate (" ") selected
  [name ++ " is " ++ age ++ " and currently focusing on " ++ focus
      ++ ". Keep routines steady, narrate feelings in simple words, and anchor every practice in playful curiosity."]
    ++ (match profile.notes with
      | some n =>
        if n = "" then []
        else if pyStrip n = "" then []
        else ["Family goals to echo this week: " ++ pyStrip n
          ++ ". Break each goal into tiny checkpoints and celebrate when your child makes any attempt, not just perfect results."]
      | none => [])
    ++ ["Try these calming anchors over the next few days: " ++ joined_tips
      ++ " Keep the guidance visible on the fridge so every caregiver reinforces the same cues."]

/-- `_fallback_guidance`: the deterministic multi-paragraph text. -/
def fallbackGuidance (child : Child) (profile : ChildProfile)
    (docs : List AdviceDocRec) : String :=
  String.intercalate ("\n\n") (fallbackParagraphs child profile docs)

/-- `_generate_guidance_snapshot`: the oracle holds `_call_openai`'s return
value (`none` on any failure, and never an empty string in the source since the
helper only returns stripped nonempty text — a falsy value means fallback). -/
def generateGuidanceSnapshot (ai : Option String) (child : Child)
    (profile : ChildProfile) (docs : List AdviceDocRec) : String :=
  match ai with
  | some t => if t = "" then fallbackGuidance child profile docs else t
  | none => fallbackGuidance child profile docs

/-- `refresh_profile_guidance`: no profile means no-op `None`; with `force`
off and a truthy cached guidance the cache is returned; otherwise the snapshot
is regenerated and stored on the profile. Returns the guidance and the updated
child row. -/
def refreshProfileGuidance (ai : Option String) (db : GuidanceDB)
    (child : Child) (force : Bool) : Option String × Child :=
  match child.profile with
  | none => (none, child)
  | some profile =>
    if force = false ∧ truthyStr profile.guidance = true then
      (profile.guidance, child)
    else
      let text := generateGuidanceSnapshot ai child profile (fetchSupportingDocs db)
      (some text, { child with profile := some { profile with guidance := some text } })

/-- `_refresh_guidance_safely` (`routes/child_routes.py`): the route wraps the
refresh in try/except, logging and swallowing every exception, so the caller
always proceeds with a child row — the pre-call row when the attempt failed. -/
def refreshGuidanceSafely (attempt : Except String (Option String × Child))
    (child : Child) : Child :=
  match attempt with
  | Except.ok r => r.2
  | Except.error _ => child

/-- C6: guidance regeneration never propagates a generator failure — a failed
or empty external response always yields the deterministic fallback, which is
a multi-paragraph text (2 or 3 paragraphs joined by a blank line), a forced
refresh stores it on the profile, and the route-level wrapper swallows any
residual exception so the owning request proceeds with the original row. -/
theorem guidance_never_propagates (db : GuidanceDB) (child : Child)
    (profile : ChildProfile) (hp : child.profile = some profile) :
    (∀ ai : Option String, ai = none ∨ ai = some "" →
        generateGuidanceSnapshot ai child profile (fetchSupportingDocs db)
          = fallbackGuidance child profile (fetchSupportingDocs db))
      ∧ refreshProfileGuidance none db child true
          = (some (fallbackGuidance child profile (fetchSupportingDocs db)),
             { child with profile := some { profile with
                 guidance := some (fallbackGuidance child profile (fetchSupportingDocs db)) } })
      ∧ (2 ≤ (fallbackParagraphs child profile (fetchSupportingDocs db)).length
          ∧ (fallbackParagraphs child profile (fetchSupportingDocs db)).length ≤ 3)
      ∧ (∀ e : String, refreshGuidanceSafely (Except.error e) child = child) := by
  refine ⟨?_, ?_, ?_, fun e => rfl⟩
  · intro ai hai
    rcases hai with h | h
    · subst h
      rfl
    · subst h
      rfl
  · unfold refreshProfileGuidance
    rw [hp]
    simp
    rfl
  · simp only [fallbackParagraphs, List.length_append]
    repeat' split
    all_goals simp only [List.length_nil, List.length_cons]
    all_goals omega

def c6Profile : ChildProfile :=
  { notes := some "More words daily", guidance := none,
    traits := { gender := none, hair := none, skin := none, glasses := false } }

def c6Child : Child :=
  { id := 2, name := "Lia", age := 5, disability := some "speech delay",
    level := "beginner", profile := some c6Profile, created_at := 0 }

def c6DB : GuidanceDB :=
  { advice_docs := [] }

/-- C6 witness: with a failing generator the snapshot equals the fallback text
and the wrapper swallows a concrete error. -/
theorem guidance_never_propagates_witness :
    generateGuidanceSnapshot none c6Child c6Profile (fetchSupportingDocs c6DB)
        = fallbackGuidance c6Child c6Profile (fetchSupportingDocs c6DB)
      ∧ refreshGuidanceSafely (Except.error ("db down")) c6Child = c6Child :=
  ⟨(guidance_never_propagates c6DB c6Child c6Profile (by decide)).1 none (Or.inl rfl),
   (guidance_never_propagates c6DB c6Child c6Profile (by decide)).2.2.2 ("db down")⟩

/-! ### Chat Orchestrator (`services/openai_summary_service.py`)

The two `_chat_completion` calls (text-to-SQL and narration) are modelled by
the `ChatOracles` values they return (`none` on any failure); the prompt
strings, the loaded history turns and the JSON row preview feed only those
external calls and are not replayed here. `session.execute` of the generated
statement is modelled by an `Except Unit (List ChatRow)` outcome. `Decimal`
row values do not arise in the model (all numbers are exact), so
`_clean_row_value` only has its datetime case. -/

inductive JVal where
  | jstr : String → JVal
  | jint : Int → JVal
  | jbool : Bool → JVal
  | jnull : JVal
  | jtime : Nat → JVal
  | jjson : String → JVal
deriving Repr, DecidableEq

/-- One mapping row of a query result or snapshot section. -/
abbrev ChatRow := List (String × JVal)

/-- The abstract ISO rendering of a timestamp tick (injective,
order-preserving). -/
def timeStr (t : Nat) : String :=
  toString t

def jopt : Option String → JVal
  | some s => JVal.jstr s
  | none => JVal.jnull

structure LevelResultLog where
  id : Nat
  child_id : Nat
  level : Int
  expected_answer : String
  child_answer : String
  created_at : Nat
deriving Repr, DecidableEq

structure ChildEvent where
  id : Nat
  child_id : Nat
  event_type : String
  payload : String
  timestamp : Nat
deriving Repr, DecidableEq

structure SpeechButtonUsage where
  id : Nat
  child_id : Nat
  button_key : String
  label : Option String
  category : Option String
  press_count : Nat
  created_at : Nat
  updated_at : Nat
deriving Repr, DecidableEq

structure ParentChatSession where
  id : Nat
  child_id : Nat
deriving Repr, DecidableEq

/-- The assistant-message metadata dict (`None` fields are keys the branch does
not set). The question message stores no metadata (`metadata or {}`). -/
structure MsgMeta where
  executed_sql : Option String
  row_count : Nat
  history_consumed : Nat
  fallback_snapshot : Bool
  reason : Option String
  rows_preview : Option (List ChatRow)
deriving Repr, DecidableEq

structure ParentChatMessage where
  id : Nat
  session_id : Nat
  child_id : Nat
  role : String
  content : String
  message_meta : Option MsgMeta
  created_at : Nat
deriving Repr, DecidableEq

/-- The tables and id/clock counters the chat pipeline touches. -/
structure ChatDB where
  children : List Child
  task_emotion_logs : List TaskEmotionLog
  level_result_logs : List LevelResultLog
  child_events : List ChildEvent
  speech_button_usage : List SpeechButtonUsage
  chat_sessions : List ParentChatSession
  chat_messages : List ParentChatMessage
  next_session_id : Nat
  next_message_id : Nat
  now : Nat
deriving Repr, DecidableEq

def ROW_PREVIEW_LIMIT : Nat := 25

def SNAPSHOT_LIMIT : Nat := 5

def DEFAULT_CHAT_HISTORY_LIMIT : Nat := 8

def MAX_CHAT_HISTORY_LIMIT : Nat := 30

def PARENT_ROLE : String := "parent"

def ASSISTANT_ROLE : String := "assistant"

/-- `_is_safe_select_query`. -/
def FORBIDDEN_TOKENS : List String :=
  ["insert", "update", "delete", "drop", "alter", "truncate", "grant",
   "revoke", "comment", "--", "/*", "*/"]

def isSafeSelectQuery (query : String) : Bool :=
  if query.data = [] then false
  else
    let stripped := pyStripL query.data
    if stripped = [] then false
    else
      let stripped2 :=
        if stripped.getLast? == some ';' then pyStripL stripped.dropLast else stripped
      let lowered := pyLowerL stripped2
      if prefixOfB (String.data ("select")) lowered = false then false
      else FORBIDDEN_TOKENS.all (fun tok => !(infixOfB tok.data lowered))

/-- The claim's wording of the gate: after trimming surrounding whitespace and
one trailing semicolon (re-trimming after the drop), the text must start with
`select` case-insensitively and its lowercase form must contain no denylisted
token. -/
def safeSelectSpec (query : String) : Bool :=
  let t1 := pyStripL query.data
  let core := if t1.getLast? == some ';' then pyStripL t1.dropLast else t1
  prefixOfB (String.data ("select")) (pyLowerL core)
    && FORBIDDEN_TOKENS.all (fun tok => !(infixOfB tok.data (pyLowerL core)))

/-- `_normalize_history_limit`: default 8, clamped to [0, 30]. -/
def normalizeHistoryLimit (history_limit : Option Int) : Nat :=
  match history_limit with
  | none => DEFAULT_CHAT_HISTORY_LIMIT
  | some v => (max 0 (min v (MAX_CHAT_HISTORY_LIMIT : Int))).toNat

/-- `_fetch_chat_history`: newest `limit` messages of the session by
`(created_at DESC, id DESC)`, returned oldest-first. Its result seeds only the
generator prompt. -/
def fetchChatHistory (db : ChatDB) (chat_session_id : Nat) (limit_value : Nat) :
    List ParentChatMessage :=
  if limit_value = 0 then []
  else
    ((sortDescBy (fun m => m.created_at) (sortDescBy (fun m => m.id)
        (db.chat_messages.filter (fun m => m.session_id == chat_session_id)))).take
      limit_value).reverse

/-- `_ensure_parent_chat_session`: an explicit id must belong to the child
(`.one_or_none()`; ids are unique so the first match is the row) or the call
fails; no id creates and flushes a fresh session. -/
def ensureParentChatSession (db : ChatDB) (child_id : Nat) (session_id : Option Nat) :
    Except String (ParentChatSession × ChatDB) :=
  match session_id with
  | some sid =>
    match (db.chat_sessions.filter (fun s => s.id == sid && s.child_id == child_id)).head? with
    | none => Except.error ("The specified chat session does not exist for this child.")
    | some s => Except.ok (s, db)
  | none =>
    let s : ParentChatSession := { id := db.next_session_id, child_id := child_id }
    Except.ok (s, { db with chat_sessions := db.chat_sessions ++ [s],
                            next_session_id := db.next_session_id + 1 })

/-- `_log_chat_message`: flush one message row (id and created-at tick come
from the counters). -/
def logChatMessage (db : ChatDB) (chat_session : ParentChatSession)
    (role content : String) (metadata : Option MsgMeta) :
    ParentChatMessage × ChatDB :=
  let m : ParentChatMessage :=
    { id := db.next_message_id, session_id := chat_session.id,
      child_id := chat_session.child_id, role := role, content := content,
      message_meta := metadata, created_at := db.now }
  (m, { db with chat_messages := db.chat_messages ++ [m],
                next_message_id := db.next_message_id + 1,
                now := db.now + 1 })

structure ChatResult where
  answer : String
  sql : Option String
  rows : List ChatRow
  session_id : Nat
  question_message_id : Nat
  answer_message_id : Nat
deriving Repr, DecidableEq

/-- `_finalize_chat_response`: persist the question then the answer, and build
the response payload. -/
def finalizeChatResponse (db : ChatDB) (chat_session : ParentChatSession)
    (question_text answer_text : String) (sql_text : Option String)
    (rows : List ChatRow) (assistant_metadata : Option MsgMeta) :
    ChatResult × ChatDB :=
  let qm := logChatMessage db chat_session PARENT_ROLE question_text none
  let am := logChatMessage qm.2 chat_session ASSISTANT_ROLE answer_text assistant_metadata
  ({ answer := answer_text, sql := sql_text, rows := rows,
     session_id := chat_session.id, question_message_id := qm.1.id,
     answer_message_id := am.1.id }, am.2)

/-- `_gather_structured_snapshot`: a child summary record plus the most recent
`SNAPSHOT_LIMIT` task logs, level results, events, and top speech-button
usages; the child record is prepended only when the rest is nonempty. -/
def gatherStructuredSnapshot (db : ChatDB) (child_id : Nat) : List ChatRow :=
  let child_section : Option ChatRow :=
    match (db.children.filter (fun c => c.id == child_id)).head? with
    | some child => some
        [("section", JVal.jstr "child"), ("name", JVal.jstr child.name),
         ("age", JVal.jint child.age), ("disability", jopt child.disability),
         ("level", JVal.jstr child.level),
         ("created_at", JVal.jstr (timeStr child.created_at))]
    | none => none
  let task_rows := ((sortDescBy (fun l => l.created_at)
      (db.task_emotion_logs.filter (fun l => l.child_id == child_id))).take SNAPSHOT_LIMIT).map
    (fun log =>
      [("section", JVal.jstr "task_emotion_logs"), ("task_name", JVal.jstr log.task_name),
       ("emotion", JVal.jstr log.emotion), ("stress_level", JVal.jint log.stress_level),
       ("created_at", JVal.jstr (timeStr log.created_at))])
  let level_rows := ((sortDescBy (fun l => l.created_at)
      (db.level_result_logs.filter (fun l => l.child_id == child_id))).take SNAPSHOT_LIMIT).map
    (fun r =>
      [("section", JVal.jstr "level_result_logs"), ("level", JVal.jint r.level),
       ("expected_answer", JVal.jstr r.expected_answer),
       ("child_answer", JVal.jstr r.child_answer),
       ("created_at", JVal.jstr (timeStr r.created_at))])
  let event_rows := ((sortDescBy (fun e => e.timestamp)
      (db.child_events.filter (fun e => e.child_id == child_id))).take SNAPSHOT_LIMIT).map
    (fun e =>
      [("section", JVal.jstr "child_events"), ("event_type", JVal.jstr e.event_type),
       ("payload", JVal.jjson e.payload),
       ("timestamp", JVal.jstr (timeStr e.timestamp))])
  let speech_rows := ((sortDescBy (fun u => u.press_count)
      (db.speech_button_usage.filter (fun u => u.child_id == child_id))).take SNAPSHOT_LIMIT).map
    (fun u =>
      [("section", JVal.jstr "speech_button_usage"), ("button_key", JVal.jstr u.button_key),
       ("label", jopt u.label), ("category", jopt u.category),
       ("press_count", JVal.jint u.press_count),
       ("updated_at", JVal.jstr (timeStr u.updated_at))])
  let snapshot := task_rows ++ level_rows ++ event_rows ++ speech_rows
  match child_section with
  | some cs => if snapshot ≠ [] then cs :: snapshot else snapshot
  | none => snapshot

/-- `_clean_row_value` (datetime → ISO string; the Decimal → float case has no
exact-model counterpart and no model value inhabits it). -/
def cleanRowValue : JVal → JVal
  | JVal.jtime t => JVal.jstr (timeStr t)
  | v => v

/-- `_serialize_result_rows`. -/
def serializeResultRows (rows : List ChatRow) : List ChatRow :=
  rows.map (fun row => row.map (fun kv => (kv.1, cleanRowValue kv.2)))

/-- `sql_query.rstrip(";")`: drop every trailing semicolon. -/
def pyRstripSemi (s : String) : String :=
  String.mk ((s.data.reverse.dropWhile (fun c => c = ';')).reverse)

def FALLBACK_LABEL : String := "FALLBACK_SNAPSHOT"

/-- The external generator outcomes one invocation can observe. -/
structure ChatOracles where
  sql_gen : Option String
  narrate : Option String
deriving Repr, DecidableEq

/-- `finalize_with_message`: every degraded reply persists the pair with
metadata; all call sites leave `rows` at its empty default. -/
def finalizeWithMessage (db : ChatDB) (chat_session : ParentChatSession)
    (trimmed_question answer_text reason : String) (executed_sql : Option String)
    (is_fallback_snapshot : Bool) (normalized_history_limit : Nat) :
    Except String ChatResult × ChatDB :=
  let meta : MsgMeta :=
    { executed_sql := if is_fallback_snapshot then none else executed_sql,
      row_count := 0,
      history_consumed := normalized_history_limit,
      fallback_snapshot := is_fallback_snapshot,
      reason := some reason,
      rows_preview := none }
  let r := finalizeChatResponse db chat_session trimmed_question answer_text
    (if is_fallback_snapshot then none else executed_sql) [] (some meta)
  (Except.ok r.1, r.2)

/-- The non-empty-rows tail of the pipeline: narrate (or apologise) and
persist the pair with the success metadata. -/
def narrateAndFinalize (oracles : ChatOracles) (db : ChatDB)
    (chat_session : ParentChatSession) (trimmed_question : String)
    (serialized_rows : List ChatRow) (executed_sql : Option String)
    (is_fallback_snapshot : Bool) (normalized_history_limit : Nat) :
    Except String ChatResult × ChatDB :=
  if serialized_rows = [] then
    finalizeWithMessage db chat_session trimmed_question
      ("There is not enough data in the app yet to answer this question about the child.")
      ("no_rows") (if is_fallback_snapshot then none else executed_sql)
      is_fallback_snapshot normalized_history_limit
  else
    let final_answer :=
      match oracles.narrate with
      | some t => t
      | none => "I found relevant data, but I could not craft a response right now. Please check again later."
    let meta : MsgMeta :=
      { executed_sql := if is_fallback_snapshot then none else executed_sql,
        row_count := serialized_rows.length,
        history_consumed := normalized_history_limit,
        fallback_snapshot := is_fallback_snapshot,
        reason := none,
        rows_preview := some (serialized_rows.take ROW_PREVIEW_LIMIT) }
    let r := finalizeChatResponse db chat_session trimmed_question final_answer
      (if is_fallback_snapshot then none else executed_sql) serialized_rows (some meta)
    (Except.ok r.1, r.2)

/-- The pipeline after session resolution: translate, gate, execute, fall
back, narrate, persist (the part of `generate_parent_chat_response` following
`_ensure_parent_chat_session`). -/
def generateChatAfterSession (oracles : ChatOracles)
    (exec_result : Except Unit (List ChatRow)) (db1 : ChatDB) (child_id : Nat)
    (chat_session : ParentChatSession) (trimmed_question : String)
    (nlim : Nat) : Except String ChatResult × ChatDB :=
  match oracles.sql_gen with
  | none =>
    match gatherStructuredSnapshot db1 child_id with
    | [] =>
      finalizeWithMessage db1 chat_session trimmed_question
        ("I could not generate a response right now. Please try again in a few minutes.")
        ("sql_generation_failed") none false nlim
    | s :: rest =>
      narrateAndFinalize oracles db1 chat_session trimmed_question
        (s :: rest) (some FALLBACK_LABEL) true nlim
  | some q0 =>
    if pyUpper (pyStrip q0) = "NO_QUERY" then
      match gatherStructuredSnapshot db1 child_id with
      | [] =>
        finalizeWithMessage db1 chat_session trimmed_question
          ("There is not enough data in the app yet to answer this question about the child.")
          ("no_query") none false nlim
      | s :: rest =>
        narrateAndFinalize oracles db1 chat_session trimmed_question
          (s :: rest) (some FALLBACK_LABEL) true nlim
    else if isSafeSelectQuery (pyStrip q0) = false then
      (Except.error ("The generated query is not safe to execute."), db1)
    else
      match exec_result with
      | Except.error _ =>
        (Except.error ("An error occurred while running the query against the database."), db1)
      | Except.ok rows0 =>
        match serializeResultRows rows0 with
        | [] =>
          match gatherStructuredSnapshot db1 child_id with
          | [] =>
            finalizeWithMessage db1 chat_session trimmed_question
              ("There is not enough data in the app yet to answer this question about the child.")
              ("empty_rows") (some (pyRstripSemi (pyStrip q0))) false nlim
          | s :: rest =>
            narrateAndFinalize oracles db1 chat_session trimmed_question
              (s :: rest) (some FALLBACK_LABEL) true nlim
        | r :: rest =>
          narrateAndFinalize oracles db1 chat_session trimmed_question
            (r :: rest) (some (pyRstripSemi (pyStrip q0))) false nlim

/-- `generate_parent_chat_response`: raised `ValueError`s are `Except.error`
results; the returned state carries any session flushed before the raise
(the route catches the error inside the transaction scope, which commits). -/
def generateParentChatResponse (oracles : ChatOracles)
    (exec_result : Except Unit (List ChatRow)) (db : ChatDB) (child_id : Nat)
    (question : String) (chat_session_id : Option Nat)
    (history_limit : Option Int) : Except String ChatResult × ChatDB :=
  if pyStrip question = "" then
    (Except.error ("The parent\x27s question is required."), db)
  else
    match ensureParentChatSession db child_id chat_session_id with
    | Except.error e => (Except.error e, db)
    | Except.ok (chat_session, db1) =>
      generateChatAfterSession oracles exec_result db1 child_id chat_session
        (pyStrip question) (normalizeHistoryLimit history_limit)

/-- The `ValueError` handling of `routes/parent_routes.py::parent_chat`:
errors become HTTP 400, successes 200. -/
def parentChatRouteStatus (outcome : Except String ChatResult) : Nat :=
  match outcome with
  | Except.error _ => 400
  | Except.ok _ => 200

theorem isSafeSelectQuery_eq_spec (q : String) :
    isSafeSelectQuery q = safeSelectSpec q := by
  unfold isSafeSelectQuery safeSelectSpec
  by_cases h1 : q.data = []
  · rw [h1]
    rfl
  · rw [if_neg h1]
    by_cases h2 : pyStripL q.data = []
    · simp only [h2]
      rfl
    · simp only [h2]
      cases hpre : prefixOfB (String.data ("select"))
          (pyLowerL (if (pyStripL q.data).getLast? == some ';'
            then pyStripL (pyStripL q.data).dropLast else pyStripL q.data)) with
      | false => simp [hpre]
      | true => simp [hpre]

theorem ensure_messages (db : ChatDB) (child_id : Nat) (sid : Option Nat)
    (sess : ParentChatSession) (db1 : ChatDB)
    (h : ensureParentChatSession db child_id sid = Except.ok (sess, db1)) :
    db1.chat_messages = db.chat_messages := by
  cases sid with
  | none =>
    simp only [ensureParentChatSession, Except.ok.injEq, Prod.mk.injEq] at h
    rw [← h.2]
  | some s0 =>
    simp only [ensureParentChatSession] at h
    split at h
    · exact absurd h (by simp)
    · simp only [Except.ok.injEq, Prod.mk.injEq] at h
      rw [← h.2]

/-- C3: the gate accepts exactly the statements that, after trimming a
trailing semicolon and surrounding whitespace, start with `select`
case-insensitively and contain no denylisted token; and once a generated
statement that is not the `NO_QUERY` sentinel fails the gate, the invocation
stops with the invalid-query error before any execution (the outcome is
identical for every possible execution result), persisting no chat message. -/
theorem chat_safety_gate :
    (∀ q : String, isSafeSelectQuery q = safeSelectSpec q)
      ∧ (∀ (oracles : ChatOracles) (exec1 exec2 : Except Unit (List ChatRow))
          (db db1 : ChatDB) (sess : ParentChatSession) (child_id : Nat)
          (question : String) (sid : Option Nat) (hl : Option Int) (s : String),
          pyStrip question ≠ "" →
          ensureParentChatSession db child_id sid = Except.ok (sess, db1) →
          oracles.sql_gen = some s →
          pyUpper (pyStrip s) ≠ "NO_QUERY" →
          isSafeSelectQuery (pyStrip s) = false →
          generateParentChatResponse oracles exec1 db child_id question sid hl
              = (Except.error ("The generated query is not safe to execute."), db1)
            ∧ (generateParentChatResponse oracles exec1 db child_id question sid hl).2.chat_messages
              = db.chat_messages
            ∧ generateParentChatResponse oracles exec1 db child_id question sid hl
              = generateParentChatResponse oracles exec2 db child_id question sid hl) := by
  constructor
  · exact isSafeSelectQuery_eq_spec
  · intro oracles exec1 exec2 db db1 sess child_id question sid hl s hq hens hsql hnq hunsafe
    have hmain : ∀ exec : Except Unit (List ChatRow),
        generateParentChatResponse oracles exec db child_id question sid hl
          = (Except.error ("The generated query is not safe to execute."), db1) := by
      intro exec
      unfold generateParentChatResponse
      rw [if_neg hq, hens]
      unfold generateChatAfterSession
      rw [hsql]
      simp [hnq, hunsafe]
    refine ⟨hmain exec1, ?_, by rw [hmain exec1, hmain exec2]⟩
    rw [hmain exec1]
    exact ensure_messages db child_id sid sess db1 hens

def c3DB : ChatDB :=
  { children := [], task_emotion_logs := [], level_result_logs := [],
    child_events := [], speech_button_usage := [], chat_sessions := [],
    chat_messages := [], next_session_id := 1, next_message_id := 1, now := 0 }

def c3Sess : ParentChatSession :=
  { id := 1, child_id := 1 }

def c3DB1 : ChatDB :=
  { c3DB with chat_sessions := [c3Sess], next_session_id := 2 }

def c3Oracles : ChatOracles :=
  { sql_gen := some ("DELETE FROM children"), narrate := none }

/-- C3 witness: a generated `DELETE` statement is rejected with the
invalid-query error before execution, regardless of what executing it would
have returned. -/
theorem chat_safety_gate_witness :
    generateParentChatResponse c3Oracles (Except.ok []) c3DB 1
        ("How did the week go?") none none
      = (Except.error ("The generated query is not safe to execute."), c3DB1) :=
  (chat_safety_gate.2 c3Oracles (Except.ok []) (Except.error ()) c3DB c3DB1 c3Sess 1
    ("How did the week go?") none none ("DELETE FROM children")
    (by decide) (by rfl) rfl (by decide) (by decide)).1

theorem finalizeChatResponse_messages (db : ChatDB) (sess : ParentChatSession)
    (q a : String) (sql : Option String) (rows : List ChatRow)
    (meta : Option MsgMeta) :
    (finalizeChatResponse db sess q a sql rows meta).2.chat_messages
      = db.chat_messages ++
        [{ id := db.next_message_id, session_id := sess.id, child_id := sess.child_id,
           role := PARENT_ROLE, content := q, message_meta := none,
           created_at := db.now },
         { id := db.next_message_id + 1, session_id := sess.id,
           child_id := sess.child_id, role := ASSISTANT_ROLE, content := a,
           message_meta := meta, created_at := db.now + 1 }] := by
  unfold finalizeChatResponse logChatMessage
  simp

theorem finalizeWithMessage_pair (db : ChatDB) (sess : ParentChatSession)
    (q ans reason : String) (ex : Option String) (fb : Bool) (nlim : Nat)
    (r : ChatResult) (db' : ChatDB)
    (h : finalizeWithMessage db sess q ans reason ex fb nlim = (Except.ok r, db')) :
    ∃ qm am : ParentChatMessage,
      db'.chat_messages = db.chat_messages ++ [qm, am]
        ∧ qm.role = PARENT_ROLE ∧ am.role = ASSISTANT_ROLE ∧ qm.content = q
        ∧ am.content = r.answer ∧ am.message_meta.isSome = true
        ∧ qm.session_id = r.session_id ∧ am.session_id = r.session_id
        ∧ qm.id = r.question_message_id ∧ am.id = r.answer_message_id := by
  simp only [finalizeWithMessage, Prod.mk.injEq, Except.ok.injEq] at h
  obtain ⟨hr, hdb⟩ := h
  subst hr
  subst hdb
  refine ⟨_, _, finalizeChatResponse_messages db sess q ans
    (if fb = true then none else ex) []
    (some { executed_sql := if fb = true then none else ex, row_count := 0,
            history_consumed := nlim, fallback_snapshot := fb,
            reason := some reason, rows_preview := none }), rfl, rfl, rfl, rfl,
    rfl, rfl, rfl, rfl, rfl⟩

theorem narrateAndFinalize_pair (oracles : ChatOracles) (db : ChatDB)
    (sess : ParentChatSession) (q : String) (rows : List ChatRow)
    (ex : Option String) (fb : Bool) (nlim : Nat) (r : ChatResult) (db' : ChatDB)
    (h : narrateAndFinalize oracles db sess q rows ex fb nlim = (Except.ok r, db')) :
    ∃ qm am : ParentChatMessage,
      db'.chat_messages = db.chat_messages ++ [qm, am]
        ∧ qm.role = PARENT_ROLE ∧ am.role = ASSISTANT_ROLE ∧ qm.content = q
        ∧ am.content = r.answer ∧ am.message_meta.isSome = true
        ∧ qm.session_id = r.session_id ∧ am.session_id = r.session_id
        ∧ qm.id = r.question_message_id ∧ am.id = r.answer_message_id := by
  unfold narrateAndFinalize at h
  split at h
  · exact finalizeWithMessage_pair _ _ _ _ _ _ _ _ _ _ h
  · simp only [Prod.mk.injEq, Except.ok.injEq] at h
    obtain ⟨hr, hdb⟩ := h
    subst hr
    subst hdb
    exact ⟨_, _, finalizeChatResponse_messages _ _ _ _ _ _ _, rfl, rfl, rfl, rfl,
      rfl, rfl, rfl, rfl, rfl⟩

theorem afterSession_pair (oracles : ChatOracles)
    (exec : Except Unit (List ChatRow)) (db1 : ChatDB) (child_id : Nat)
    (sess : ParentChatSession) (q : String) (nlim : Nat)
    (r : ChatResult) (db' : ChatDB)
    (h : generateChatAfterSession oracles exec db1 child_id sess q nlim
      = (Except.ok r, db')) :
    ∃ qm am : ParentChatMessage,
      db'.chat_messages = db1.chat_messages ++ [qm, am]
        ∧ qm.role = PARENT_ROLE ∧ am.role = ASSISTANT_ROLE ∧ qm.content = q
        ∧ am.content = r.answer ∧ am.message_meta.isSome = true
        ∧ qm.session_id = r.session_id ∧ am.session_id = r.session_id
        ∧ qm.id = r.question_message_id ∧ am.id = r.answer_message_id := by
  unfold generateChatAfterSession at h
  repeat' split at h
  all_goals first
    | exact absurd h (by simp)
    | exact finalizeWithMessage_pair _ _ _ _ _ _ _ _ _ _ h
    | exact narrateAndFinalize_pair _ _ _ _ _ _ _ _ _ _ h

def c4DB : ChatDB :=
  { children := [], task_emotion_logs := [], level_result_logs := [],
    child_events := [], speech_button_usage := [], chat_sessions := [],
    chat_messages := [], next_session_id := 1, next_message_id := 1, now := 0 }

def c4Oracles : ChatOracles :=
  { sql_gen := some ("DROP TABLE children"), narrate := none }

/-- C4 counterexample: an invocation whose generated statement fails the
safety gate terminates by raising, persisting no message at all — so not every
branch persists the user/assistant pair. -/
theorem chat_pair_counterexample :
    (generateParentChatResponse c4Oracles (Except.ok []) c4DB 1
        ("How is my child doing?") none none).1
      = Except.error ("The generated query is not safe to execute.")
      ∧ (generateParentChatResponse c4Oracles (Except.ok []) c4DB 1
          ("How is my child doing?") none none).2.chat_messages = [] :=
  ⟨rfl, rfl⟩

/-- C4 amended: every invocation that returns (rather than raising) — the
generator-declined, generator-failure, empty-rows, degraded and success
branches alike — persists exactly one question message (role `parent`)
followed by one assistant message carrying metadata, both in the session of
the returned response. -/
theorem chat_pair_on_success (oracles : ChatOracles)
    (exec : Except Unit (List ChatRow)) (db : ChatDB) (child_id : Nat)
    (question : String) (sid : Option Nat) (hl : Option Int)
    (r : ChatResult) (db' : ChatDB)
    (h : generateParentChatResponse oracles exec db child_id question sid hl
      = (Except.ok r, db')) :
    ∃ qm am : ParentChatMessage,
      db'.chat_messages = db.chat_messages ++ [qm, am]
        ∧ qm.role = PARENT_ROLE ∧ am.role = ASSISTANT_ROLE
        ∧ qm.content = pyStrip question
        ∧ am.content = r.answer ∧ am.message_meta.isSome = true
        ∧ qm.session_id = r.session_id ∧ am.session_id = r.session_id
        ∧ qm.id = r.question_message_id ∧ am.id = r.answer_message_id := by
  unfold generateParentChatResponse at h
  split at h
  · exact absurd h (by simp)
  · split at h
    · exact absurd h (by simp)
    · rename_i sess db1 heq
      obtain ⟨qm, am, hmsgs, hrest⟩ := afterSession_pair _ _ _ _ _ _ _ _ _ h
      refine ⟨qm, am, ?_, hrest⟩
      rw [hmsgs, ensure_messages db child_id sid sess db1 heq]

def c4wDB : ChatDB :=
  { children := [], task_emotion_logs := [], level_result_logs := [],
    child_events := [], speech_button_usage := [], chat_sessions := [],
    chat_messages := [], next_session_id := 1, next_message_id := 1, now := 0 }

def c4wOracles : ChatOracles :=
  { sql_gen := none, narrate := none }

def c4wR : ChatResult :=
  { answer := "I could not generate a response right now. Please try again in a few minutes.",
    sql := none, rows := [], session_id := 1, question_message_id := 1,
    answer_message_id := 2 }

def c4wDB2 : ChatDB :=
  (generateParentChatResponse c4wOracles (Except.ok []) c4wDB 1 ("Hi") none none).2

/-- C4 witness: a generator-failure invocation on an empty database still
returns normally and persists the question/answer pair in the new session. -/
theorem chat_pair_on_success_witness :
    ∃ qm am : ParentChatMessage,
      c4wDB2.chat_messages = c4wDB.chat_messages ++ [qm, am]
        ∧ qm.role = PARENT_ROLE ∧ am.role = ASSISTANT_ROLE
        ∧ qm.content = pyStrip ("Hi")
        ∧ am.content = c4wR.answer ∧ am.message_meta.isSome = true
        ∧ qm.session_id = c4wR.session_id ∧ am.session_id = c4wR.session_id
        ∧ qm.id = c4wR.question_message_id ∧ am.id = c4wR.answer_message_id :=
  chat_pair_on_success c4wOracles (Except.ok []) c4wDB 1 ("Hi") none none
    c4wR c4wDB2 (by rfl)

/-- C10: when the generated statement fails the gate, or its execution
raises, the invocation ends in a `ValueError`-style error without persisting
any chat message (the session table may carry the freshly created session, but
the message log is untouched), and the HTTP route maps that error to a 400
response (successes to 200). -/
theorem unsafe_or_failing_query_raises :
    (∀ (oracles : ChatOracles) (exec : Except Unit (List ChatRow))
        (db db1 : ChatDB) (sess : ParentChatSession) (child_id : Nat)
        (question : String) (sid : Option Nat) (hl : Option Int) (s : String),
        pyStrip question ≠ "" →
        ensureParentChatSession db child_id sid = Except.ok (sess, db1) →
        oracles.sql_gen = some s →
        pyUpper (pyStrip s) ≠ "NO_QUERY" →
        isSafeSelectQuery (pyStrip s) = false →
        generateParentChatResponse oracles exec db child_id question sid hl
            = (Except.error ("The generated query is not safe to execute."), db1)
          ∧ db1.chat_messages = db.chat_messages)
      ∧ (∀ (oracles : ChatOracles) (db db1 : ChatDB) (sess : ParentChatSession)
          (child_id : Nat) (question : String) (sid : Option Nat)
          (hl : Option Int) (s : String),
          pyStrip question ≠ "" →
          ensureParentChatSession db child_id sid = Except.ok (sess, db1) →
          oracles.sql_gen = some s →
          pyUpper (pyStrip s) ≠ "NO_QUERY" →
          isSafeSelectQuery (pyStrip s) = true →
          generateParentChatResponse oracles (Except.error ()) db child_id
              question sid hl
            = (Except.error ("An error occurred while running the query against the database."), db1)
          ∧ db1.chat_messages = db.chat_messages)
      ∧ (∀ e : String, parentChatRouteStatus (Except.error e) = 400)
      ∧ (∀ r : ChatResult, parentChatRouteStatus (Except.ok r) = 200) := by
  refine ⟨?_, ?_, fun e => rfl, fun r => rfl⟩
  · intro oracles exec db db1 sess child_id question sid hl s hq hens hsql hnq hunsafe
    refine ⟨?_, ensure_messages db child_id sid sess db1 hens⟩
    unfold generateParentChatResponse
    rw [if_neg hq, hens]
    unfold generateChatAfterSession
    rw [hsql]
    simp [hnq, hunsafe]
  · intro oracles db db1 sess child_id question sid hl s hq hens hsql hnq hsafe
    refine ⟨?_, ensure_messages db child_id sid sess db1 hens⟩
    unfold generateParentChatResponse
    rw [if_neg hq, hens]
    unfold generateChatAfterSession
    rw [hsql]
    simp [hnq, hsafe]

def c10DB : ChatDB :=
  { children := [], task_emotion_logs := [], level_result_logs := [],
    child_events := [], speech_button_usage := [], chat_sessions := [],
    chat_messages := [], next_session_id := 1, next_message_id := 1, now := 0 }

def c10Sess : ParentChatSession :=
  { id := 1, child_id := 1 }

def c10DB1 : ChatDB :=
  { c10DB with chat_sessions := [c10Sess], next_session_id := 2 }

def c10Oracles : ChatOracles :=
  { sql_gen := some ("SELECT * FROM children WHERE id = :child_id"), narrate := none }

/-- C10 witness: a safe SELECT whose execution raises yields the query-failed
error with no persisted messages, and errors map to HTTP 400. -/
theorem unsafe_or_failing_query_raises_witness :
    generateParentChatResponse c10Oracles (Except.error ()) c10DB 1
        ("What happened today?") none none
      = (Except.error ("An error occurred while running the query against the database."), c10DB1)
      ∧ parentChatRouteStatus (Except.error ("boom")) = 400 :=
  ⟨(unsafe_or_failing_query_raises.2.1 c10Oracles c10DB c10DB1 c10Sess 1
      ("What happened today?") none none
      ("SELECT * FROM children WHERE id = :child_id")
      (by decide) (by rfl) rfl (by decide) (by decide)).1,
   unsafe_or_failing_query_raises.2.2.1 ("boom")⟩
